import Mathlib

/-!
Shallow embedding of the Carnegie-classifications ancestry-grid dashboard.

The repository has two source variants of the same feature set:
  * `ancestrygrid.py` — the partitioned variant: `update_table` parses a
    dropdown value "current_name|||unit_id", resolves a name→group id,
    reads the matching partition, builds a year × degree-label pivot and a
    merged-into / absorbed lineage display.
  * `ancestrygridupdated.py` — the older variant: `update_table` filters the
    full dataset by current name and builds a merged-into display.

A pandas DataFrame row is modelled as `Row`; a frame as a `List Row` plus a
flag recording whether the optional `merged_into_id` column is present in
the snapshot (`Dataset`).  Nullable columns are `Option`-valued.  pandas
operations are translated as:
  * boolean-mask filtering            → `List.filter`
  * `.unique()` / `.drop_duplicates()`→ `uniqueList` (keeps first occurrences)
  * `.sort_values(col)`               → `List.insertionSort` keyed on the column
    (pandas' default quicksort is not stable; no property proved here
    depends on the order of equal keys)
  * `.dropna()`                       → `List.filterMap id` on the option column
  * raised exceptions (KeyError, IndexError, ValueError, missing partition)
    → `Except.error`
-/

/-- One row of the source table (`updated_data.parquet`).  `current_name` and
`inst_name` are nullable object columns; `merged_into_id` is the nullable
lineage column, meaningful only when `Dataset.hasMergedInto` is true. -/
structure Row where
  current_name : Option String
  inst_name : Option String
  unit_id : Int
  year : Int
  degree_label : String
  class_status : String
  const_cat_value : Int
  merged_into_id : Option Int
deriving DecidableEq

/-- A loaded snapshot: the rows plus whether the optional `merged_into_id`
column exists in this snapshot (`'merged_into_id' in df.columns`). -/
structure Dataset where
  rows : List Row
  hasMergedInto : Bool
deriving DecidableEq

/-- Helper for `uniqueList`: keep elements not yet seen, first occurrence
order, like pandas `Series.unique()` / `DataFrame.drop_duplicates()`. -/
def uniqueAux {α : Type} [DecidableEq α] (seen : List α) : List α → List α
  | [] => []
  | x :: xs => if x ∈ seen then uniqueAux seen xs else x :: uniqueAux (x :: seen) xs

/-- pandas `unique()` / `drop_duplicates()`: distinct values in first
occurrence order. -/
def uniqueList {α : Type} [DecidableEq α] (l : List α) : List α :=
  uniqueAux [] l

theorem mem_uniqueAux {α : Type} [DecidableEq α] (a : α) :
    ∀ (l seen : List α), a ∈ uniqueAux seen l ↔ a ∈ l ∧ a ∉ seen := by
  intro l
  induction l with
  | nil => intro seen; simp [uniqueAux]
  | cons x xs ih =>
    intro seen
    by_cases hx : x ∈ seen
    · rw [uniqueAux, if_pos hx, ih]
      constructor
      · rintro ⟨hmem, hns⟩; exact ⟨List.mem_cons_of_mem _ hmem, hns⟩
      · rintro ⟨hmem, hns⟩
        rcases List.mem_cons.mp hmem with rfl | hmem
        · exact absurd hx hns
        · exact ⟨hmem, hns⟩
    · rw [uniqueAux, if_neg hx]
      constructor
      · intro hmem
        rcases List.mem_cons.mp hmem with rfl | hmem
        · exact ⟨List.mem_cons_self _ _, hx⟩
        · rcases (ih _).mp hmem with ⟨hxs, hns⟩
          refine ⟨List.mem_cons_of_mem _ hxs, fun hs => hns (List.mem_cons_of_mem _ hs)⟩
      · rintro ⟨hmem, hns⟩
        rcases List.mem_cons.mp hmem with rfl | hmem
        · exact List.mem_cons_self _ _
        · by_cases hax : a = x
          · subst hax; exact List.mem_cons_self _ _
          · exact List.mem_cons_of_mem _ ((ih _).mpr ⟨hmem, by
              intro hcons
              rcases List.mem_cons.mp hcons with h | h
              · exact hax h
              · exact hns h⟩)

theorem mem_uniqueList {α : Type} [DecidableEq α] (a : α) (l : List α) :
    a ∈ uniqueList l ↔ a ∈ l := by
  rw [uniqueList, mem_uniqueAux]
  simp

theorem nodup_uniqueAux {α : Type} [DecidableEq α] :
    ∀ (l seen : List α), (uniqueAux seen l).Nodup := by
  intro l
  induction l with
  | nil => intro seen; simp [uniqueAux]
  | cons x xs ih =>
    intro seen
    by_cases hx : x ∈ seen
    · rw [uniqueAux, if_pos hx]; exact ih seen
    · rw [uniqueAux, if_neg hx]
      refine List.Nodup.cons ?_ (ih (x :: seen))
      intro hmem
      exact ((mem_uniqueAux x xs (x :: seen)).mp hmem).2 (List.mem_cons_self _ _)

theorem nodup_uniqueList {α : Type} [DecidableEq α] (l : List α) :
    (uniqueList l).Nodup :=
  nodup_uniqueAux l []

/-- Lexicographic code-point comparison on strings via their character lists,
the order Python's `sorted()` uses on `str`.  (Written structurally so that
concrete evaluations reduce in the kernel.) -/
def strLeChars : List Char → List Char → Bool
  | [], _ => true
  | _ :: _, [] => false
  | a :: as, b :: bs =>
    if a.val < b.val then true
    else if b.val < a.val then false
    else strLeChars as bs

/-- Python string ordering as a proposition, for `List.insertionSort`. -/
def str_le (s t : String) : Prop := strLeChars s.data t.data = true

instance : DecidableRel str_le := fun s t =>
  inferInstanceAs (Decidable (strLeChars s.data t.data = true))

/-- `pd.notnull(name) and name != "None"` filter applied to nullable name
columns before building lineage links. -/
def valid_name : Option String → Option String
  | none => none
  | some nm => if nm = "None" then none else some nm

namespace AncestryGrid

/-- `desired_order` from ancestrygrid.py: the fixed category rank list. -/
def desired_order : List String :=
  ["Doctoral", "Master's", "Bachelor's", "Associates", "Bacc/Assoc",
   "SF: 2Yr", "SF: 4Yr", "Tribal/Oth", "Not in"]

/-- Ordering of (class_status, const_cat_value) pairs by the numeric rank
column, as in `unique_pairs.sort_values('const_cat_value')`. -/
def rank_le (p q : String × Int) : Prop := p.2 ≤ q.2

instance : DecidableRel rank_le := fun p q =>
  inferInstanceAs (Decidable (p.2 ≤ q.2))

instance : IsTotal (String × Int) rank_le :=
  ⟨fun a b => Int.le_total a.2 b.2⟩

instance : IsTrans (String × Int) rank_le :=
  ⟨fun _ _ _ h1 h2 => le_trans h1 h2⟩

/-- `filtered_df[['class_status', 'const_cat_value']].drop_duplicates()` for
the rows of the given year and degree label. -/
def unique_pairs (ds : Dataset) (year : Int) (degree_label : String) :
    List (String × Int) :=
  uniqueList ((ds.rows.filter
    (fun r => decide (r.year = year ∧ r.degree_label = degree_label))).map
      (fun r => (r.class_status, r.const_cat_value)))

/-- `unique_pairs.sort_values('const_cat_value')`. -/
def sorted_pairs (ds : Dataset) (year : Int) (degree_label : String) :
    List (String × Int) :=
  (unique_pairs ds year degree_label).insertionSort rank_le

/-- `get_unique_labels_for_year_degree_label` from ancestrygrid.py: the
class_status values of the rank-sorted deduplicated pairs. -/
def get_unique_labels_for_year_degree_label (ds : Dataset) (year : Int)
    (degree_label : String) : List String :=
  (sorted_pairs ds year degree_label).map Prod.fst

/-- The non-null `current_name` column of the snapshot (the names the
dropdown grouping is built from). -/
def current_names (ds : Dataset) : List String :=
  ds.rows.filterMap (fun r => r.current_name)

/-- `sorted(set(unique_names))` over the dropdown's current names. -/
def sorted_unique_names (ds : Dataset) : List String :=
  (uniqueList (current_names ds)).insertionSort str_le

/-- Position of a name in the sorted name list (the `enumerate` index). -/
def idx_of_name : List String → String → Nat → Option Nat
  | [], _, _ => none
  | x :: xs, nm, i => if x = nm then some i else idx_of_name xs nm (i + 1)

/-- `name_to_group = {name: idx // 10 ...}`: dictionary lookup, `none` when
the name is absent (Python raises KeyError). -/
def name_to_group (ds : Dataset) (nm : String) : Option Nat :=
  (idx_of_name (sorted_unique_names ds) nm 0).map (· / 10)

/-- `group_id = name_to_group[selected_name]` with the KeyError a missing
dictionary key raises. -/
def resolve_group (ds : Dataset) (nm : String) : Except String Nat :=
  match name_to_group ds nm with
  | some g => .ok g
  | none => .error "KeyError"

/-- The separator character of the dropdown value format "name|||unit_id". -/
def sepChar : Char := '|'

/-- Python `str.split("|||")`: split into all parts at non-overlapping
occurrences of the three-bar separator, left to right. -/
def split_triple_bar : List Char → List (List Char)
  | [] => [[]]
  | c1 :: c2 :: c3 :: rest =>
    if c1 = sepChar ∧ c2 = sepChar ∧ c3 = sepChar then
      [] :: split_triple_bar rest
    else
      match split_triple_bar (c2 :: c3 :: rest) with
      | [] => [[c1]]
      | p :: ps => (c1 :: p) :: ps
  | c :: rest =>
    match split_triple_bar rest with
    | [] => [[c]]
    | p :: ps => (c :: p) :: ps

/-- Decimal digit value of a character, if it is a digit. -/
def digit_val (c : Char) : Option Nat :=
  if '0' ≤ c ∧ c ≤ '9' then some (c.toNat - '0'.toNat) else none

/-- Accumulate the decimal value of a digit string; `none` on a non-digit. -/
def digits_val_aux : List Char → Nat → Option Nat
  | [], acc => some acc
  | c :: cs, acc =>
    match digit_val c with
    | some d => digits_val_aux cs (acc * 10 + d)
    | none => none

/-- Python `int(s)` on the plain decimal forms the dropdown values use
(an optional leading minus sign followed by digits); `none` models the
ValueError raised on anything else. -/
def parse_int (cs : List Char) : Option Int :=
  match cs with
  | [] => none
  | c :: rest =>
    if c = '-' then
      match rest with
      | [] => none
      | _ => (digits_val_aux rest 0).map (fun n => -(n : Int))
    else (digits_val_aux cs 0).map (fun n => (n : Int))

/-- `selected_name, selected_unit_id = selected_current_name.split('|||')`
followed by `int(selected_unit_id)`: ValueError when the value does not
split into exactly two parts or the second is not an integer. -/
def parse_selection (s : String) : Except String (String × Int) :=
  match (split_triple_bar s.data).map (fun cs => String.mk cs) with
  | [nm, uidStr] =>
    match parse_int uidStr.data with
    | some n => .ok (nm, n)
    | none => .error "ValueError: invalid literal for int"
  | _ => .error "ValueError: not enough values to unpack"

/-- `pd.read_parquet('updated_data_grouped/group_id=.../')`: the partition
store keyed by group id; a missing partition directory raises. -/
def read_partition (store : List (Nat × Dataset)) (gid : Nat) :
    Except String Dataset :=
  match store.find? (fun p => p.1 == gid) with
  | some p => .ok p.2
  | none => .error "FileNotFoundError"

/-- `group_data[(group_data['current_name'] == selected_name) &
(group_data['unit_id'] == int(selected_unit_id))]`. -/
def filter_selection (gdata : Dataset) (nm : String) (uid : Int) : List Row :=
  gdata.rows.filter (fun r => decide (r.current_name = some nm ∧ r.unit_id = uid))

/-- `sorted(new_data['year'].unique())`. -/
def sorted_years (ds : Dataset) : List Int :=
  (uniqueList (ds.rows.map (fun r => r.year))).insertionSort (· ≤ ·)

/-- One (degree label, year) pivot cell: the universe of sub-status values
for that year and label, the selected institution's own values, and the
highlight flag. -/
structure PivotCell where
  year : Int
  all_statuses : List String
  inst_statuses : List String
  highlighted : Bool
deriving DecidableEq

/-- The "Merged Into" display: one target id, the distinct valid current
names of that id (each rendered as its own clickable link) and the merge
year. -/
structure MergedIntoInfo where
  id : Int
  names : List String
  mergeYear : Option Int
deriving DecidableEq

/-- One "Absorbed" entry: the source institution id, its distinct valid
historical names (each a clickable link) and the absorption year. -/
structure AbsorbedInfo where
  id : Int
  names : List String
  year : Int
deriving DecidableEq

/-- The data content `update_table` returns to the renderer. -/
structure GridOutput where
  years : List Int
  pivotRows : List (String × List PivotCell)
  mergedInto : Option MergedIntoInfo
  absorbed : List AbsorbedInfo
deriving DecidableEq

/-- The `return [], ""` output for an empty selection. -/
def empty_output : GridOutput :=
  { years := [], pivotRows := [], mergedInto := none, absorbed := [] }

/-- The pivot grid loop: one row per label of `desired_order`, in that
order, one cell per year. -/
def build_pivot_rows (ds : Dataset) (filtered : List Row) (years : List Int) :
    List (String × List PivotCell) :=
  desired_order.map (fun lbl =>
    (lbl, years.map (fun y =>
      let all_statuses := get_unique_labels_for_year_degree_label ds y lbl
      let inst_statuses := uniqueList ((filtered.filter
        (fun r => decide (r.year = y ∧ r.degree_label = lbl))).map
          (fun r => r.class_status))
      { year := y, all_statuses := all_statuses, inst_statuses := inst_statuses,
        highlighted := !inst_statuses.isEmpty })))

/-- The "Merged Into" section of ancestrygrid.py: guarded on the column
being present and not all-null; null and -1 values are filtered out before
the lookup; `unique()[0]` of the remaining values is their first element
(pandas `unique` keeps first occurrences). -/
def build_merged_into (ds : Dataset) (gHasCol : Bool) (filtered : List Row) :
    Option MergedIntoInfo :=
  if gHasCol = false then none
  else if (filtered.filterMap (fun r => r.merged_into_id)).isEmpty then none
  else
    match (filtered.filterMap (fun r => r.merged_into_id)).filter
        (fun v => decide (v ≠ -1)) with
    | [] => none
    | v :: _ =>
      if ((uniqueList ((ds.rows.filter (fun r => decide (r.unit_id = v))).map
            (fun r => r.current_name))).filterMap valid_name).isEmpty then none
      else some
        { id := v,
          names := (uniqueList ((ds.rows.filter (fun r => decide (r.unit_id = v))).map
            (fun r => r.current_name))).filterMap valid_name,
          mergeYear := ((filtered.filter (fun r =>
            decide (r.merged_into_id ≠ none ∧ r.merged_into_id ≠ some (-1)))).map
              (fun r => r.year)).min? }

/-- The "Absorbed" section of ancestrygrid.py: `filtered_data['unit_id'].iloc[0]`
raises IndexError on an empty frame, and the unguarded
`new_data['merged_into_id']` raises KeyError when the snapshot lacks the
lineage column; otherwise scan for rows merged into the selected id.
`absorbed_entry` is the body of the loop over the deduplicated
(unit_id, current_name, year) triples: entries whose source institution has
no rows or no valid historical names are skipped. -/
def absorbed_entry (ds : Dataset) (t : Int × Option String × Int) :
    Option AbsorbedInfo :=
  if (ds.rows.filter (fun r => decide (r.unit_id = t.1))).isEmpty then none
  else if ((uniqueList ((ds.rows.filter (fun r => decide (r.unit_id = t.1))).map
      (fun r => r.inst_name))).filterMap valid_name).isEmpty then none
  else some
    { id := t.1,
      names := (uniqueList ((ds.rows.filter (fun r => decide (r.unit_id = t.1))).map
        (fun r => r.inst_name))).filterMap valid_name,
      year := t.2.2 }

def build_absorbed (ds : Dataset) (filtered : List Row) :
    Except String (List AbsorbedInfo) :=
  match filtered with
  | [] => .error "IndexError: single positional indexer is out-of-bounds"
  | r0 :: _ =>
    if ds.hasMergedInto = false then .error "KeyError: merged_into_id"
    else if (ds.rows.filter
        (fun r => decide (r.merged_into_id = some r0.unit_id))).isEmpty then .ok []
    else .ok ((uniqueList ((ds.rows.filter
        (fun r => decide (r.merged_into_id = some r0.unit_id))).map
          (fun r => (r.unit_id, r.current_name, r.year)))).filterMap
            (absorbed_entry ds))

/-- Body of `update_table` after a non-empty selection has been parsed:
resolve the name group, read the partition, filter to the selection, then
build the pivot, the merged-into section and the absorbed list. -/
def update_table_core (ds : Dataset) (store : List (Nat × Dataset))
    (nm : String) (uid : Int) : Except String GridOutput :=
  match resolve_group ds nm with
  | .error e => .error e
  | .ok gid =>
    match read_partition store gid with
    | .error e => .error e
    | .ok gdata =>
      let filtered := filter_selection gdata nm uid
      match build_absorbed ds filtered with
      | .error e => .error e
      | .ok ab =>
        .ok { years := sorted_years ds,
              pivotRows := build_pivot_rows ds filtered (sorted_years ds),
              mergedInto := build_merged_into ds gdata.hasMergedInto filtered,
              absorbed := ab }

/-- `update_table` of ancestrygrid.py: `if not selected_current_name:
return [], ""`, otherwise parse the "name|||unit_id" value and run the
query; any exception the Python body raises is an `Except.error`. -/
def update_table (ds : Dataset) (store : List (Nat × Dataset))
    (sel : Option String) : Except String GridOutput :=
  match sel with
  | none => .ok empty_output
  | some s =>
    if s = "" then .ok empty_output
    else
      match parse_selection s with
      | .error e => .error e
      | .ok (nm, uid) => update_table_core ds store nm uid

/-- State-threaded view of `update_table`: the Python body only reads
(boolean-mask filtering, groupby, sorting and `read_parquet` all produce
new frames; nothing assigns into `new_data` or the partition frames), so
the post-call dataset and partition store are the ones passed in. -/
def update_table_st (ds : Dataset) (store : List (Nat × Dataset))
    (sel : Option String) :
    Except String GridOutput × Dataset × List (Nat × Dataset) :=
  (update_table ds store sel, ds, store)

end AncestryGrid

namespace AncestryGridUpdated

/-- `desired_order` from ancestrygridupdated.py (no 'Bacc/Assoc' entry). -/
def desired_order : List String :=
  ["Doctoral", "Master's", "Bachelor's", "Associates",
   "SF: 2Yr", "SF: 4Yr", "Tribal/Oth", "Not in"]

/-- The "Merged Into" display of the updated variant: the resolved target id
and the (unfiltered) unique current names associated with it. -/
structure UpdMergedInto where
  id : Int
  names : List (Option String)
deriving DecidableEq

/-- Lines 76–98 of ancestrygridupdated.py (`update_table`'s
`merged_into_display` section): guarded on a truthy selection and on the
`merged_into_id` column being present and not all-null, it resolves
`filtered_data['merged_into_id'].dropna().unique()[0]` — the first non-null
value, with NO -1 filter — and looks up that id's current names.
(`unique()[0]` of a non-empty list is its first element.) -/
def merged_into_display (ds : Dataset) (sel : Option String) :
    Option UpdMergedInto :=
  match sel with
  | none => none
  | some s =>
    if s = "" then none
    else if ds.hasMergedInto = false then none
    else
      match (ds.rows.filter (fun r => decide (r.current_name = some s))).filterMap
          (fun r => r.merged_into_id) with
      | [] => none
      | v :: _ =>
        some { id := v,
               names := uniqueList ((ds.rows.filter
                 (fun r => decide (r.unit_id = v))).map (fun r => r.current_name)) }

/-- `get_unique_labels_for_year_degree_label` of the updated variant:
`filtered_df.sort_values(by='const_cat_value')['class_status'].unique()` —
here `unique()` runs after the sort, so the result is always duplicate-free. -/
def get_unique_labels_for_year_degree_label (df : List Row) (year : Int)
    (degree_label : String) : List String :=
  uniqueList (((df.filter
    (fun r => decide (r.year = year ∧ r.degree_label = degree_label))).insertionSort
      (fun a b => a.const_cat_value ≤ b.const_cat_value)).map (fun r => r.class_status))

end AncestryGridUpdated

/-- Row builder for the concrete datasets used in the witnesses and
counterexamples below. -/
def mkRow (cn iname : Option String) (uid y : Int) (dl cs : String)
    (ccv : Int) (mi : Option Int) : Row :=
  { current_name := cn, inst_name := iname, unit_id := uid, year := y,
    degree_label := dl, class_status := cs, const_cat_value := ccv,
    merged_into_id := mi }

/-- Dataset for the C1 counterexample: in year 2020 / "Doctoral" the
class_status "A" occurs with two distinct const_cat_value ranks (1 and 3)
and "B" with rank 2. -/
def c1ds : Dataset :=
  { rows :=
      [ mkRow (some "A College") (some "A College") 1 2020 "Doctoral" "A" 1 none,
        mkRow (some "A College") (some "A College") 1 2020 "Doctoral" "B" 2 none,
        mkRow (some "A College") (some "A College") 1 2020 "Doctoral" "A" 3 none ],
    hasMergedInto := true }

/-- Dataset for the C1 witness: each class_status has a single rank. -/
def c1wds : Dataset :=
  { rows :=
      [ mkRow (some "A College") (some "A College") 1 2020 "Doctoral" "A" 1 none,
        mkRow (some "A College") (some "A College") 1 2020 "Doctoral" "B" 2 none ],
    hasMergedInto := true }

/-- Two-institution dataset from the spec's §8 example: B College
(unit_id 2) was merged into A College (unit_id 1). -/
def exampleRows : List Row :=
  [ mkRow (some "A College") (some "A College") 1 2020 "Doctoral" "Active" 1 none,
    mkRow (some "B College") (some "B College") 2 2020 "Doctoral" "Active" 1 (some 1) ]

/-- Dataset for the C2 counterexample / witness. -/
def c2ds : Dataset := { rows := exampleRows, hasMergedInto := true }

/-- Partition store for `c2ds`: both names hash to group 0. -/
def c2store : List (Nat × Dataset) := [(0, c2ds)]

/-- Dataset for the C3 failing input (updated variant): B College's
`merged_into_id` is the -1 sentinel, present and non-null. -/
def c3ds : Dataset :=
  { rows :=
      [ mkRow (some "B College") (some "B College") 2 2020 "Doctoral" "Active" 1 (some (-1)) ],
    hasMergedInto := true }

/-- Dataset and store for the C4 witness (the spec's §8 example). -/
def c4ds : Dataset := { rows := exampleRows, hasMergedInto := true }

def c4store : List (Nat × Dataset) := [(0, c4ds)]

/-- Dataset for the C5 witness: the §8 example plus a row whose category
label "Weird" is not in `desired_order`. -/
def c5ds : Dataset :=
  { rows := exampleRows ++
      [ mkRow (some "A College") (some "A College") 1 2020 "Weird" "X" 5 none ],
    hasMergedInto := true }

def c5store : List (Nat × Dataset) := [(0, c5ds)]

/-- Dataset and store for the C7 witness. -/
def c7ds : Dataset := { rows := exampleRows, hasMergedInto := true }

def c7store : List (Nat × Dataset) := [(0, c7ds)]

/-- Dataset for the C8 failing input: the snapshot lacks the
`merged_into_id` column entirely. -/
def c8ds : Dataset :=
  { rows :=
      [ mkRow (some "A College") (some "A College") 1 2020 "Doctoral" "Active" 1 none ],
    hasMergedInto := false }

def c8store : List (Nat × Dataset) := [(0, c8ds)]

theorem mem_filter_decide {α : Type} (p : α → Prop) [DecidablePred p]
    (l : List α) (a : α) :
    a ∈ l.filter (fun x => decide (p x)) ↔ a ∈ l ∧ p a := by
  simp [List.mem_filter]

theorem valid_name_eq_some (o : Option String) (n : String) :
    valid_name o = some n ↔ o = some n ∧ n ≠ "None" := by
  cases o with
  | none => simp [valid_name]
  | some m =>
    by_cases hm : m = "None"
    · subst hm
      constructor
      · intro h; simp [valid_name] at h
      · rintro ⟨h, hne⟩
        injection h with h'
        exact absurd h'.symm hne
    · simp only [valid_name, if_neg hm, Option.some.injEq]
      constructor
      · rintro rfl; exact ⟨rfl, hm⟩
      · rintro ⟨h, _⟩; exact h

theorem idx_of_name_eq_none (nm : String) :
    ∀ (l : List String) (i : Nat), nm ∉ l →
      AncestryGrid.idx_of_name l nm i = none := by
  intro l
  induction l with
  | nil => intro i _; rfl
  | cons x xs ih =>
    intro i hmem
    have hx : ¬ x = nm := by
      intro h
      exact hmem (by rw [← h]; exact List.mem_cons_self x xs)
    rw [AncestryGrid.idx_of_name, if_neg hx]
    exact ih (i + 1) (fun h => hmem (List.mem_cons_of_mem _ h))

theorem resolve_group_not_found (ds : Dataset) (nm : String)
    (hn : nm ∉ AncestryGrid.current_names ds) :
    AncestryGrid.resolve_group ds nm = .error "KeyError" := by
  have h1 : nm ∉ AncestryGrid.sorted_unique_names ds := by
    rw [AncestryGrid.sorted_unique_names]
    intro hmem
    exact hn ((mem_uniqueList nm _).mp
      ((List.perm_insertionSort _ _).mem_iff.mp hmem))
  rw [AncestryGrid.resolve_group, AncestryGrid.name_to_group,
    idx_of_name_eq_none nm _ 0 h1]
  rfl

/-- Claim C1, counterexample: in `ancestrygrid.py` the cell list is NOT
always deduplicated — dropping duplicates of (class_status, const_cat_value)
pairs leaves the same class_status twice when it occurs under two distinct
ranks, as in `c1ds` where the displayed list is ["A", "B", "A"]. -/
theorem get_unique_labels_not_deduped :
    ¬ (AncestryGrid.get_unique_labels_for_year_degree_label c1ds 2020 "Doctoral").Nodup := by
  decide

/-- Claim C1, amended: unconditionally, the cell list is the class_status
projection of the deduplicated (class_status, const_cat_value) pairs, that
pair list is duplicate-free, and its const_cat_value keys ascend — the cell
is ordered by the numeric rank column, never lexicographically; in
addition, whenever each class_status carries a single rank within the
(year, category) cell, the displayed list itself is duplicate-free. -/
theorem get_unique_labels_rank_ordered (ds : Dataset) (year : Int)
    (degree_label : String) :
    List.Sorted (fun a b => a ≤ b)
        ((AncestryGrid.sorted_pairs ds year degree_label).map Prod.snd)
    ∧ (AncestryGrid.sorted_pairs ds year degree_label).Nodup
    ∧ AncestryGrid.get_unique_labels_for_year_degree_label ds year degree_label
        = (AncestryGrid.sorted_pairs ds year degree_label).map Prod.fst
    ∧ ((∀ p ∈ AncestryGrid.sorted_pairs ds year degree_label,
          ∀ q ∈ AncestryGrid.sorted_pairs ds year degree_label,
            p.1 = q.1 → p.2 = q.2) →
        (AncestryGrid.get_unique_labels_for_year_degree_label ds year degree_label).Nodup) := by
  have hsorted : List.Sorted AncestryGrid.rank_le
      (AncestryGrid.sorted_pairs ds year degree_label) :=
    List.sorted_insertionSort _ _
  have hnd : (AncestryGrid.sorted_pairs ds year degree_label).Nodup :=
    (List.perm_insertionSort _ _).nodup_iff.mpr (nodup_uniqueList _)
  refine ⟨?_, hnd, rfl, ?_⟩
  · rw [List.Sorted, List.pairwise_map]
    exact hsorted
  · intro hfun
    rw [AncestryGrid.get_unique_labels_for_year_degree_label]
    exact List.Nodup.map_on
      (fun x hx y hy hxy => Prod.ext hxy (hfun x hx y hy hxy)) hnd

/-- Witness for the amended C1 theorem at a dataset where each class_status
has a single rank, discharging the single-rank premise of the final
conjunct there. -/
theorem get_unique_labels_rank_ordered_witness :
    (∀ p ∈ AncestryGrid.sorted_pairs c1wds 2020 "Doctoral",
      ∀ q ∈ AncestryGrid.sorted_pairs c1wds 2020 "Doctoral",
        p.1 = q.1 → p.2 = q.2)
    ∧ (AncestryGrid.get_unique_labels_for_year_degree_label c1wds 2020 "Doctoral").Nodup :=
  ⟨by decide,
    (get_unique_labels_rank_ordered c1wds 2020 "Doctoral").2.2.2 (by decide)⟩

/-- Claim C2, counterexample: a selection whose name is not in the dataset
makes the partitioned `update_table` raise (the `name_to_group[selected_name]`
dictionary lookup), instead of returning empty results. -/
theorem update_table_unknown_name_keyerror :
    AncestryGrid.update_table c2ds c2store (some "Zebra College|||99")
      = Except.error "KeyError" := by rfl

/-- Claim C2, amended: for every well-formed non-empty selection whose
current name does not occur in the dataset, the partitioned `update_table`
raises a lookup error rather than returning empty results. -/
theorem update_table_unknown_name_raises (ds : Dataset)
    (store : List (Nat × Dataset)) (s nm : String) (uid : Int)
    (hs : s ≠ "")
    (hp : AncestryGrid.parse_selection s = .ok (nm, uid))
    (hn : nm ∉ AncestryGrid.current_names ds) :
    ∃ e, AncestryGrid.update_table ds store (some s) = .error e := by
  refine ⟨"KeyError", ?_⟩
  simp only [AncestryGrid.update_table, if_neg hs, hp,
    AncestryGrid.update_table_core, resolve_group_not_found ds nm hn]

/-- Witness for the amended C2 theorem. -/
theorem update_table_unknown_name_raises_witness :
    (("Nowhere University|||7" : String) ≠ "")
    ∧ AncestryGrid.parse_selection "Nowhere University|||7"
        = .ok ("Nowhere University", 7)
    ∧ "Nowhere University" ∉ AncestryGrid.current_names c2ds
    ∧ ∃ e, AncestryGrid.update_table c2ds c2store
        (some "Nowhere University|||7") = .error e :=
  ⟨by decide, by rfl, by decide,
    update_table_unknown_name_raises c2ds c2store "Nowhere University|||7"
      "Nowhere University" 7 (by decide) (by rfl) (by decide)⟩

/-- Claim C3 (code defect in ancestrygridupdated.py): the updated variant's
merged-into section only drops nulls, so a non-null -1 sentinel IS resolved
as a "Merged Into" target: on `c3ds` it reports target id -1. -/
theorem upd_merged_into_resolves_minus_one :
    AncestryGridUpdated.merged_into_display c3ds (some "B College")
      = some { id := -1, names := [] } := by decide

theorem absorbed_entry_id (ds : Dataset) (t : Int × Option String × Int)
    (info : AncestryGrid.AbsorbedInfo)
    (h : AncestryGrid.absorbed_entry ds t = some info) : info.id = t.1 := by
  rw [AncestryGrid.absorbed_entry] at h
  by_cases h1 : (ds.rows.filter (fun r => decide (r.unit_id = t.1))).isEmpty
  · rw [if_pos h1] at h; cases h
  · rw [if_neg h1] at h
    by_cases h2 : ((uniqueList ((ds.rows.filter
        (fun r => decide (r.unit_id = t.1))).map
          (fun r => r.inst_name))).filterMap valid_name).isEmpty
    · rw [if_pos h2] at h; cases h
    · rw [if_neg h2] at h
      injection h with h'
      subst h'
      rfl

theorem build_absorbed_mem (ds : Dataset) (filtered : List Row)
    (ab : List AncestryGrid.AbsorbedInfo) (info : AncestryGrid.AbsorbedInfo)
    (hb : AncestryGrid.build_absorbed ds filtered = .ok ab) (hi : info ∈ ab) :
    ∃ r0, filtered.head? = some r0 ∧
      ∃ r ∈ ds.rows, r.unit_id = info.id ∧ r.merged_into_id = some r0.unit_id := by
  cases filtered with
  | nil => rw [AncestryGrid.build_absorbed] at hb; cases hb
  | cons r0 rest =>
    refine ⟨r0, rfl, ?_⟩
    rw [AncestryGrid.build_absorbed] at hb
    by_cases hcol : ds.hasMergedInto = false
    · rw [if_pos hcol] at hb; cases hb
    · rw [if_neg hcol] at hb
      by_cases hemp : (ds.rows.filter
          (fun r => decide (r.merged_into_id = some r0.unit_id))).isEmpty
      · rw [if_pos hemp] at hb
        injection hb with hb'
        subst hb'
        exact absurd hi (List.not_mem_nil info)
      · rw [if_neg hemp] at hb
        injection hb with hb'
        subst hb'
        rcases List.mem_filterMap.mp hi with ⟨t, ht, hentry⟩
        have hid := absorbed_entry_id ds t info hentry
        rcases List.mem_map.mp ((mem_uniqueList t _).mp ht) with ⟨r, hrmem, hrt⟩
        rcases (mem_filter_decide _ _ _).mp hrmem with ⟨hrds, hrmi⟩
        refine ⟨r, hrds, ?_, hrmi⟩
        rw [hid, ← hrt]

/-- Claim C4: every institution reported in the "Absorbed" list of a
successful `update_table` run is witnessed by a dataset record whose
`merged_into_id` equals the selected institution's `unit_id`. -/
theorem absorbed_from_sound (ds : Dataset) (store : List (Nat × Dataset))
    (s nm : String) (uid : Int) (absl : List AncestryGrid.AbsorbedInfo)
    (info : AncestryGrid.AbsorbedInfo)
    (hp : AncestryGrid.parse_selection s = .ok (nm, uid))
    (h : (AncestryGrid.update_table ds store (some s)).toOption.map
        AncestryGrid.GridOutput.absorbed = some absl)
    (hi : info ∈ absl) :
    ∃ r ∈ ds.rows, r.unit_id = info.id ∧ r.merged_into_id = some uid := by
  by_cases hs : s = ""
  · subst hs
    have h0 : AncestryGrid.parse_selection ""
        = Except.error "ValueError: not enough values to unpack" := rfl
    rw [h0] at hp
    cases hp
  cases he : AncestryGrid.update_table ds store (some s) with
  | error e => rw [he] at h; simp [Except.toOption] at h
  | ok out =>
    rw [he] at h
    have habs : out.absorbed = absl := by simpa [Except.toOption] using h
    simp only [AncestryGrid.update_table, if_neg hs, hp] at he
    rw [AncestryGrid.update_table_core] at he
    cases hg : AncestryGrid.resolve_group ds nm with
    | error e => rw [hg] at he; cases he
    | ok gid =>
      simp only [hg] at he
      cases hr : AncestryGrid.read_partition store gid with
      | error e => rw [hr] at he; cases he
      | ok gdata =>
        simp only [hr] at he
        cases hb : AncestryGrid.build_absorbed ds
            (AncestryGrid.filter_selection gdata nm uid) with
        | error e => rw [hb] at he; cases he
        | ok ab =>
          simp only [hb] at he
          injection he with he'
          have habs2 : ab = out.absorbed := by rw [← he']
          rcases build_absorbed_mem ds _ ab info hb
              (by rw [habs2, habs]; exact hi) with
            ⟨r0, hhead, r, hrds, hrid, hrmi⟩
          have hr0 : r0 ∈ AncestryGrid.filter_selection gdata nm uid := by
            cases hfs : AncestryGrid.filter_selection gdata nm uid with
            | nil => rw [hfs] at hhead; cases hhead
            | cons a l =>
              rw [hfs] at hhead
              injection hhead with h0
              subst h0
              exact List.mem_cons_self _ _
          rw [AncestryGrid.filter_selection] at hr0
          rcases (mem_filter_decide _ _ _).mp hr0 with ⟨_, _, huid⟩
          exact ⟨r, hrds, hrid, by rw [hrmi, huid]⟩

/-- Witness for C4 on the spec's §8 example dataset: resolving A College
reports B College absorbed, and B College's record indeed has
`merged_into_id = 1`. -/
theorem absorbed_from_sound_witness :
    AncestryGrid.parse_selection "A College|||1" = .ok ("A College", 1)
    ∧ ((AncestryGrid.update_table c4ds c4store (some "A College|||1")).toOption.map
        AncestryGrid.GridOutput.absorbed)
      = some [{ id := 2, names := ["B College"], year := 2020 }]
    ∧ ({ id := 2, names := ["B College"], year := 2020 } : AncestryGrid.AbsorbedInfo)
        ∈ [({ id := 2, names := ["B College"], year := 2020 } : AncestryGrid.AbsorbedInfo)]
    ∧ ∃ r ∈ c4ds.rows,
        r.unit_id = ({ id := 2, names := ["B College"], year := 2020 }
          : AncestryGrid.AbsorbedInfo).id
        ∧ r.merged_into_id = some 1 :=
  ⟨by rfl, by decide, by decide,
    absorbed_from_sound c4ds c4store "A College|||1" "A College" 1
      [{ id := 2, names := ["B College"], year := 2020 }]
      { id := 2, names := ["B College"], year := 2020 }
      (by rfl) (by decide) (by decide)⟩

/-- Claim C5: for every dataset (hence every input row order) and every
non-empty selection whose query succeeds, the pivot grid's category rows
are exactly `desired_order`, in that order; any label outside
`desired_order` never appears as a row. -/
theorem pivot_rows_follow_desired_order (ds : Dataset)
    (store : List (Nat × Dataset)) (s : String) (labels : List String)
    (hs : s ≠ "")
    (h : (AncestryGrid.update_table ds store (some s)).toOption.map
        (fun o => o.pivotRows.map Prod.fst) = some labels) :
    labels = AncestryGrid.desired_order
    ∧ ∀ l, l ∉ AncestryGrid.desired_order → l ∉ labels := by
  cases he : AncestryGrid.update_table ds store (some s) with
  | error e => rw [he] at h; simp [Except.toOption] at h
  | ok out =>
    rw [he] at h
    have hlab : labels = out.pivotRows.map Prod.fst := by
      have h' := h
      simp [Except.toOption] at h'
      exact h'.symm
    simp only [AncestryGrid.update_table, if_neg hs] at he
    cases hp : AncestryGrid.parse_selection s with
    | error e => rw [hp] at he; cases he
    | ok v =>
      simp only [hp] at he
      obtain ⟨nm, uid⟩ := v
      rw [AncestryGrid.update_table_core] at he
      cases hg : AncestryGrid.resolve_group ds nm with
      | error e => rw [hg] at he; cases he
      | ok gid =>
        simp only [hg] at he
        cases hr : AncestryGrid.read_partition store gid with
        | error e => rw [hr] at he; cases he
        | ok gdata =>
          simp only [hr] at he
          cases hb : AncestryGrid.build_absorbed ds
              (AncestryGrid.filter_selection gdata nm uid) with
          | error e => rw [hb] at he; cases he
          | ok ab =>
            simp only [hb] at he
            injection he with he'
            have hpv : out.pivotRows = AncestryGrid.build_pivot_rows ds
                (AncestryGrid.filter_selection gdata nm uid)
                (AncestryGrid.sorted_years ds) := by
              rw [← he']
            have hfin : labels = AncestryGrid.desired_order := by
              rw [hlab, hpv, AncestryGrid.build_pivot_rows, List.map_map]
              rfl
            exact ⟨hfin, fun l hl => by rw [hfin]; exact hl⟩

/-- Witness for C5: on a dataset containing a row whose category label
"Weird" is outside `desired_order`, the row labels are still exactly
`desired_order`. -/
theorem pivot_rows_follow_desired_order_witness :
    (("A College|||1" : String) ≠ "")
    ∧ ((AncestryGrid.update_table c5ds c5store (some "A College|||1")).toOption.map
        (fun o => o.pivotRows.map Prod.fst))
      = some ["Doctoral", "Master's", "Bachelor's", "Associates", "Bacc/Assoc",
              "SF: 2Yr", "SF: 4Yr", "Tribal/Oth", "Not in"]
    ∧ (["Doctoral", "Master's", "Bachelor's", "Associates", "Bacc/Assoc",
        "SF: 2Yr", "SF: 4Yr", "Tribal/Oth", "Not in"] : List String)
        = AncestryGrid.desired_order :=
  ⟨by decide, by decide,
    (pivot_rows_follow_desired_order c5ds c5store "A College|||1"
      ["Doctoral", "Master's", "Bachelor's", "Associates", "Bacc/Assoc",
       "SF: 2Yr", "SF: 4Yr", "Tribal/Oth", "Not in"]
      (by decide) (by decide)).1⟩

/-- Claim C6: `update_table` is deterministic and side-effect-free — running
it a second time with the same selection on the state left behind by the
first run yields the same output. -/
theorem update_table_idempotent (ds : Dataset) (store : List (Nat × Dataset))
    (sel : Option String) :
    (AncestryGrid.update_table_st
        (AncestryGrid.update_table_st ds store sel).2.1
        (AncestryGrid.update_table_st ds store sel).2.2 sel).1
      = (AncestryGrid.update_table_st ds store sel).1 := rfl

theorem build_merged_into_some (ds : Dataset) (gflag : Bool)
    (filtered : List Row) (mi : AncestryGrid.MergedIntoInfo)
    (h : AncestryGrid.build_merged_into ds gflag filtered = some mi) :
    mi.names ≠ []
    ∧ ∀ n, n ∈ mi.names ↔
        ∃ r ∈ ds.rows, r.unit_id = mi.id ∧ r.current_name = some n ∧ n ≠ "None" := by
  rw [AncestryGrid.build_merged_into] at h
  by_cases h1 : gflag = false
  · rw [if_pos h1] at h; cases h
  · rw [if_neg h1] at h
    by_cases h2 : (filtered.filterMap (fun r => r.merged_into_id)).isEmpty
    · rw [if_pos h2] at h; cases h
    · rw [if_neg h2] at h
      cases hv : (filtered.filterMap (fun r => r.merged_into_id)).filter
          (fun v => decide (v ≠ -1)) with
      | nil => rw [hv] at h; cases h
      | cons v vs =>
        simp only [hv] at h
        by_cases h3 : ((uniqueList ((ds.rows.filter
            (fun r => decide (r.unit_id = v))).map
              (fun r => r.current_name))).filterMap valid_name).isEmpty
        · rw [if_pos h3] at h; cases h
        · rw [if_neg h3] at h
          injection h with h'
          subst h'
          constructor
          · intro hemp
            exact h3 (List.isEmpty_iff.mpr hemp)
          · intro n
            constructor
            · intro hn
              rcases List.mem_filterMap.mp hn with ⟨o, ho, hvn⟩
              rcases (valid_name_eq_some o n).mp hvn with ⟨rfl, hnn⟩
              rcases List.mem_map.mp ((mem_uniqueList _ _).mp ho) with ⟨r, hr, hro⟩
              rcases (mem_filter_decide _ _ _).mp hr with ⟨hrds, hru⟩
              exact ⟨r, hrds, hru, hro, hnn⟩
            · rintro ⟨r, hrds, hru, hcn, hnn⟩
              apply List.mem_filterMap.mpr
              refine ⟨some n, ?_, ?_⟩
              · apply (mem_uniqueList _ _).mpr
                apply List.mem_map.mpr
                exact ⟨r, (mem_filter_decide _ _ _).mpr ⟨hrds, hru⟩, hcn⟩
              · exact (valid_name_eq_some _ _).mpr ⟨rfl, hnn⟩

/-- Claim C7: the output carries at most one "Merged Into" target id
(`mergedInto` is optional and holds a single id), and when that target
resolves, its name list is non-empty and contains exactly the distinct
valid current names the dataset records for that id — every rename of the
target is surfaced as its own clickable link. -/
theorem merged_into_single_target (ds : Dataset)
    (store : List (Nat × Dataset)) (s : String)
    (mi : AncestryGrid.MergedIntoInfo)
    (h : (AncestryGrid.update_table ds store (some s)).toOption.bind
        AncestryGrid.GridOutput.mergedInto = some mi) :
    ((AncestryGrid.update_table ds store (some s)).toOption.elim 0
        (fun o => o.mergedInto.toList.length)) ≤ 1
    ∧ mi.names ≠ []
    ∧ ∀ n, n ∈ mi.names ↔
        ∃ r ∈ ds.rows, r.unit_id = mi.id ∧ r.current_name = some n ∧ n ≠ "None" := by
  cases he : AncestryGrid.update_table ds store (some s) with
  | error e => rw [he] at h; simp [Except.toOption] at h
  | ok out =>
    rw [he] at h
    have hmi : out.mergedInto = some mi := by
      simpa [Except.toOption] using h
    refine ⟨by simp [Except.toOption, hmi], ?_⟩
    by_cases hs : s = ""
    · subst hs
      have he2 : AncestryGrid.update_table ds store (some "")
          = .ok AncestryGrid.empty_output := rfl
      rw [he2] at he
      injection he with he'
      rw [← he'] at hmi
      cases hmi
    · simp only [AncestryGrid.update_table, if_neg hs] at he
      cases hp : AncestryGrid.parse_selection s with
      | error e => rw [hp] at he; cases he
      | ok v =>
        simp only [hp] at he
        obtain ⟨nm, uid⟩ := v
        rw [AncestryGrid.update_table_core] at he
        cases hg : AncestryGrid.resolve_group ds nm with
        | error e => rw [hg] at he; cases he
        | ok gid =>
          simp only [hg] at he
          cases hr : AncestryGrid.read_partition store gid with
          | error e => rw [hr] at he; cases he
          | ok gdata =>
            simp only [hr] at he
            cases hb : AncestryGrid.build_absorbed ds
                (AncestryGrid.filter_selection gdata nm uid) with
            | error e => rw [hb] at he; cases he
            | ok ab =>
              simp only [hb] at he
              injection he with he'
              have hbm : AncestryGrid.build_merged_into ds gdata.hasMergedInto
                  (AncestryGrid.filter_selection gdata nm uid) = some mi := by
                rw [← hmi, ← he']
              exact build_merged_into_some ds _ _ mi hbm

/-- Witness for C7: B College resolves to the single target id 1 whose one
valid current name "A College" is surfaced. -/
theorem merged_into_single_target_witness :
    ((AncestryGrid.update_table c7ds c7store (some "B College|||2")).toOption.bind
        AncestryGrid.GridOutput.mergedInto
      = some { id := 1, names := ["A College"], mergeYear := some 2020 })
    ∧ ("A College" ∈ ({ id := 1, names := ["A College"], mergeYear := some 2020 }
          : AncestryGrid.MergedIntoInfo).names ↔
        ∃ r ∈ c7ds.rows,
          r.unit_id = ({ id := 1, names := ["A College"], mergeYear := some 2020 }
            : AncestryGrid.MergedIntoInfo).id
          ∧ r.current_name = some "A College" ∧ "A College" ≠ "None") :=
  ⟨by decide,
    ((merged_into_single_target c7ds c7store "B College|||2"
      { id := 1, names := ["A College"], mergeYear := some 2020 }
      (by decide)).2.2) "A College"⟩

/-- Claim C8 (code defect in ancestrygrid.py): on a snapshot without the
`merged_into_id` column, `update_table` raises (the unguarded
`new_data['merged_into_id']` access in the absorbed-from scan) instead of
completing with an empty lineage display. -/
theorem missing_lineage_column_raises :
    AncestryGrid.update_table c8ds c8store (some "A College|||1")
      = Except.error "KeyError: merged_into_id" := by rfl

/-- Claim C9: `update_table` never writes to the loaded dataset or the
partition store — the post-call state equals the pre-call state for every
selection. -/
theorem update_table_preserves_state (ds : Dataset)
    (store : List (Nat × Dataset)) (sel : Option String) :
    (AncestryGrid.update_table_st ds store sel).2.1 = ds
    ∧ (AncestryGrid.update_table_st ds store sel).2.2 = store :=
  ⟨rfl, rfl⟩

/-- Claim C10: a `None` or empty dropdown selection returns the empty table
and empty lineage display immediately; the result does not depend on the
dataset or the partition store (no partition is read, no data touched). -/
theorem update_table_empty_selection (ds ds' : Dataset)
    (store store' : List (Nat × Dataset)) :
    AncestryGrid.update_table ds store none = .ok AncestryGrid.empty_output
    ∧ AncestryGrid.update_table ds store (some "") = .ok AncestryGrid.empty_output
    ∧ AncestryGrid.update_table ds store none
        = AncestryGrid.update_table ds' store' none :=
  ⟨rfl, rfl, rfl⟩
